import Mathlib

set_option maxHeartbeats 1000000

/-! Shallow embedding of PiDash's flow execution engine
    (`src/backend/src/services/flowExecutionService.js`) and of the guard in the
    flow controller's `runFlow` handler.  The SSH transport is modelled as an
    oracle `World`: the n-th remote command invocation and the n-th connection
    attempt have outcomes fixed by the oracle, and sessions are named by their
    open order.  Time-only effects (timestamps, the Loop inter-iteration delay)
    and log lines are unobservable and not modelled.  A thrown JS exception is
    modelled as `Except.error` carrying the error message. -/

namespace PiDash

/-- Result of `ssh.execCommand`: exit code, stdout, stderr. -/
structure ExecResult where
  code : Int
  stdout : String
  stderr : String
deriving Repr, DecidableEq

/-- A stored Raspberry Pi record, reduced to the field the engine's
    authorization check reads (`pi.user`, flowExecutionService.js line 233). -/
structure PiRec where
  user : String
deriving Repr, DecidableEq

/-- The external world: `exec n c` is the outcome of the `n`-th remote command
    of the run (0-based; `.error` is a transport-level exception), `connectOk n`
    says whether the `n`-th `ssh.connect` attempt succeeds, and `pis` is the
    stored device registry. -/
structure World where
  exec : Nat → String → Except String ExecResult
  connectOk : Nat → Bool
  pis : String → Option PiRec

/-- Kind-specific node parameters (`node.data`).  Optional scalar parameters
    that the source reads without a guard are modelled with a JSON-ish default
    value. -/
structure NodeData where
  command : Option String := none
  piId : Option String := none
  host : Option String := none
  pin : Int := 0
  state : Bool := false
  message : String := ""
  recipient : String := ""
  iterations : Option String := none
  stopOnError : Bool := false
  conditionType : Option String := none
  comparison : Option String := none
  value : String := ""
  filepath : String := ""
  expectedState : Bool := false
deriving Repr, DecidableEq

/-- A flow node: unique id, a type tag (the source compares `node.type` against
    the `NODE_TYPES` string constants), and its parameters. -/
structure Node where
  id : String
  type : String
  data : NodeData := {}
deriving Repr, DecidableEq

/-- A directed edge; `sourceHandle` carries the branch label of an edge leaving
    a conditional node (`"true"` / `"false"`). -/
structure Edge where
  id : String := ""
  source : String
  target : String
  sourceHandle : Option String := none
deriving Repr, DecidableEq

/-- The node/edge graph of one flow, with its owner. -/
structure Flow where
  user : String := "owner"
  nodes : List Node
  edges : List Edge
deriving Repr, DecidableEq

/-- An outcome record as produced by the node handlers.  In the source the Loop
    outcome's `iterations` array holds `{iteration, result}` records; the model
    keeps the iteration numbers here, while the per-iteration result payloads
    are kept in full in the results log under the `_iteration_` keys. -/
structure Outcome where
  success : Bool
  message : Option String := none
  error : Option String := none
  stdout : Option String := none
  stderr : Option String := none
  code : Option Int := none
  command : Option String := none
  conditionMet : Option Bool := none
  host : Option String := none
  pin : Option Int := none
  state : Option Bool := none
  recipient : Option String := none
  iterations : Option (List Nat) := none
deriving Repr, DecidableEq

/-- A value written into `flow.executionResults`: a per-node status tag, a
    node outcome, or a loop iteration record `{iteration, nodeId, result}`. -/
inductive RVal where
  | status (s : String)
  | outcome (o : Outcome)
  | iter (iteration : Nat) (nodeId : String) (result : Outcome)
deriving Repr, DecidableEq

/-- Observable run state: the chronological write log of `executionResults`
    (`set` then `save` after every write), and the session / remote-call
    counters used to state resource properties. -/
structure ExecState where
  log : List (String × RVal) := []
  opens : Nat := 0
  closes : Nat := 0
  connectAttempts : Nat := 0
  remoteCalls : Nat := 0
deriving Repr, DecidableEq

/-- The call pair `flow.executionResults.set(key, value)` / `flow.save()`: append
    one write to the log. -/
def ExecState.push (st : ExecState) (k : String) (v : RVal) : ExecState :=
  { st with log := st.log ++ [(k, v)] }

/-- Current value of a key in the results map: the last write wins. -/
def ExecState.lookup (st : ExecState) (k : String) : Option RVal :=
  (st.log.reverse.find? (fun p => p.1 == k)).map (fun p => p.2)

/-- JS `String.prototype.trim`: strip whitespace from both ends. -/
def jsTrim (s : String) : String :=
  ⟨((s.data.dropWhile Char.isWhitespace).reverse.dropWhile Char.isWhitespace).reverse⟩

/-- JS `String.prototype.includes` (substring test). -/
def jsIncludes (s sub : String) : Bool :=
  sub == "" || (s.splitOn sub).length != 1

/-- Longest prefix of decimal digits. -/
def leadingDigits : List Char → List Char
  | [] => []
  | c :: cs => if c.isDigit then c :: leadingDigits cs else []

/-- Value of the leading decimal digits; `none` when there are none. -/
def digitsVal (cs : List Char) : Option Nat :=
  match leadingDigits cs with
  | [] => none
  | ds => some (ds.foldl (fun a c => a * 10 + (c.toNat - 48)) 0)

/-- JS `parseInt(s, 10)`: skip surrounding whitespace, optional sign, then the
    leading decimal digits; `none` models NaN. -/
def jsParseInt (s : String) : Option Int :=
  match (jsTrim s).toList with
  | '-' :: cs => (digitsVal cs).map (fun n => -(n : Int))
  | '+' :: cs => (digitsVal cs).map (fun n => (n : Int))
  | cs => (digitsVal cs).map (fun n => (n : Int))

/-- The count read `parseInt(node.data.iterations) || 1` (line 367): a missing
    parameter and NaN are falsy, and so is 0, so all of them yield 1. -/
def loopIterCount (iterations : Option String) : Int :=
  match iterations with
  | none => 1
  | some s =>
    match jsParseInt s with
    | none => 1
    | some n => if n = 0 then 1 else n

/-- The Python command string built by `controlGPIO` (lines 327-336). -/
def gpioWriteCommand (pin : Int) (state : Bool) : String :=
  "python3 -c \"\nimport RPi.GPIO as GPIO\nimport time\n\nGPIO.setmode(GPIO.BCM)\nGPIO.setwarnings(False)\nGPIO.setup("
    ++ toString pin ++ ", GPIO.OUT)\nGPIO.output(" ++ toString pin ++ ", "
    ++ (if state then "True" else "False") ++ ")\nprint('GPIO pin " ++ toString pin
    ++ " set to " ++ (if state then "HIGH" else "LOW") ++ "')\n\""

/-- The remote test command built for the `fileExists` condition (line 471). -/
def fileExistsCommand (filepath : String) : String :=
  "test -f \"" ++ filepath ++ "\" && echo \"true\" || echo \"false\""

/-- The Python command built for the `gpio` condition (lines 476-481). -/
def gpioReadCommand (pin : Int) : String :=
  "python3 -c \"\nimport RPi.GPIO as GPIO\nGPIO.setmode(GPIO.BCM)\nGPIO.setup("
    ++ toString pin ++ ", GPIO.IN)\nprint(GPIO.input(" ++ toString pin ++ "))\n\""

/-- One `ssh.connect` attempt: the oracle decides whether it succeeds.  On
    success the new session is named by the number of previously opened
    sessions.  The transport's own failure text is abstracted to a fixed
    message under the `Connection failed:` wrapper of line 282. -/
def connectAttempt (w : World) (st : ExecState) : Except String Nat × ExecState :=
  let st1 := { st with connectAttempts := st.connectAttempts + 1 }
  if w.connectOk st.connectAttempts then
    (.ok st1.opens, { st1 with opens := st1.opens + 1 })
  else
    (.error "Connection failed: connect ECONNREFUSED", st1)

/-- Source `connectToPi` (lines 227-284): resolve the target either from the stored
    device registry (owner must match, line 233) or from inline node data, then
    attempt to connect.  Every failure is rethrown as `Connection failed: ...`
    by the catch at lines 280-283. -/
def connectToPi (w : World) (flow : Flow) (node : Node) (st : ExecState) :
    Except String Nat × ExecState :=
  match node.data.piId with
  | some pid =>
    match w.pis pid with
    | none => (.error "Connection failed: Raspberry Pi not found or unauthorized", st)
    | some pi =>
      if pi.user ≠ flow.user then
        (.error "Connection failed: Raspberry Pi not found or unauthorized", st)
      else
        connectAttempt w st
  | none => connectAttempt w st

/-- Source `executeCommand` (lines 292-315).  Expected failures are caught inside and
    returned as `{success:false, error, command}`; a nonzero exit code is a
    normal result.  A null `ssh` reproduces the JS property-access TypeError,
    which the same catch converts into a failure outcome without any remote
    call happening. -/
def executeCommand (w : World) (ssh : Option Nat) (command : Option String)
    (st : ExecState) : Outcome × ExecState :=
  if command = none ∨ jsTrim (command.getD "") = "" then
    ({ success := false, error := some "Command cannot be empty", command := command }, st)
  else
    match ssh with
    | none =>
      ({ success := false,
         error := some "Cannot read properties of null (reading 'execCommand')",
         command := command }, st)
    | some _ =>
      let st1 := { st with remoteCalls := st.remoteCalls + 1 }
      match w.exec st.remoteCalls (command.getD "") with
      | .ok r =>
        ({ success := r.code == 0, stdout := some r.stdout, stderr := some r.stderr,
           code := some r.code, command := command }, st1)
      | .error e =>
        ({ success := false, error := some e, command := command }, st1)

/-- Source `controlGPIO` (lines 324-356): run the GPIO write command directly over the
    session; the catch returns `{success:false, error, pin, state}`. -/
def controlGPIO (w : World) (ssh : Option Nat) (pin : Int) (state : Bool)
    (st : ExecState) : Outcome × ExecState :=
  match ssh with
  | none =>
    ({ success := false,
       error := some "Cannot read properties of null (reading 'execCommand')",
       pin := some pin, state := some state }, st)
  | some _ =>
    let st1 := { st with remoteCalls := st.remoteCalls + 1 }
    match w.exec st.remoteCalls (gpioWriteCommand pin state) with
    | .ok r =>
      ({ success := r.code == 0, stdout := some r.stdout, stderr := some r.stderr,
         pin := some pin, state := some state }, st1)
    | .error e =>
      ({ success := false, error := some e, pin := some pin, state := some state }, st1)

/-- The normal-evaluation outcome of a conditional node (lines 487-491). -/
def condOutcome (cm : Bool) : Outcome :=
  { success := true, conditionMet := some cm,
    message := some ("Condition evaluated to " ++ (if cm then "true" else "false")) }

/-- Source `evaluateCondition` (lines 439-499); never throws, the catch at lines
    492-498 converts any failure into `{success:false, error}`. -/
def evaluateCondition (w : World) (node : Node) (ssh : Option Nat)
    (st : ExecState) : Outcome × ExecState :=
  if node.data.conditionType = some "command" then
    let p := executeCommand w ssh node.data.command st
    if ¬ p.1.success then
      ({ success := false,
         error := some ("Command execution failed: "
           ++ (p.1.error.getD (p.1.stderr.getD "undefined"))) }, p.2)
    else
      let out := p.1.stdout.getD ""
      let cm :=
        if node.data.comparison = some "contains" then jsIncludes out node.data.value
        else if node.data.comparison = some "equals" then jsTrim out == jsTrim node.data.value
        else if node.data.comparison = some "notContains" then ! jsIncludes out node.data.value
        else if node.data.comparison = some "notEquals" then jsTrim out != jsTrim node.data.value
        else false
      (condOutcome cm, p.2)
  else if node.data.conditionType = some "fileExists" then
    let p := executeCommand w ssh (some (fileExistsCommand node.data.filepath)) st
    match p.1.stdout with
    | some out => (condOutcome (jsTrim out == "true"), p.2)
    | none =>
      ({ success := false,
         error := some "Cannot read properties of undefined (reading 'trim')" }, p.2)
  else if node.data.conditionType = some "gpio" then
    let p := executeCommand w ssh (some (gpioReadCommand node.data.pin)) st
    match p.1.stdout with
    | some out => (condOutcome ((jsTrim out == "1") == node.data.expectedState), p.2)
    | none =>
      ({ success := false,
         error := some "Cannot read properties of undefined (reading 'trim')" }, p.2)
  else
    (condOutcome false, st)

/-- Edge selection after a conditional node (lines 182-186): the first outgoing
    edge whose `sourceHandle` is the label of the evaluated branch. -/
def condNextEdge (edges : List Edge) (conditionMet : Bool) : Option Edge :=
  edges.find? (fun e =>
    (conditionMet && e.sourceHandle == some "true") ||
    (!conditionMet && e.sourceHandle == some "false"))

/-- The catch block of `executeNode` (lines 205-218): record the failure
    outcome and an `error` status for the node, dispose the session this frame
    received as its `sshConnection` parameter (line 213 — not the possibly
    newer session), and rethrow. -/
def nodeCatch (node : Node) (ssh : Option Nat) (e : String) (st : ExecState) :
    Except String Outcome × ExecState :=
  let st1 := ((st.push node.id (.outcome { success := false, error := some e })).push
    (node.id ++ "_status") (.status "error"))
  let st2 := if ssh.isSome then { st1 with closes := st1.closes + 1 } else st1
  (.error e, st2)

/-- The loop summary outcome (lines 418-422): the loop itself reports success
    with the number of completed iterations. -/
def loopDone (len : Nat) : Outcome :=
  { success := true,
    message := some ("Loop completed " ++ toString len ++ " iterations"),
    iterations := some ((List.range len).map (fun j => j + 1)) }

mutual

/-- Source `executeNode` (lines 88-219): mark the node running, dispatch on
    `node.type` (`nodeDispatch`, the switch at lines 101-163), then record the
    outcome and walk the successors (`nodeFinish`, lines 165-218).  `.error`
    models a thrown JS exception escaping the call; `fuel` bounds the
    recursion depth. -/
def executeNode (w : World) (flow : Flow) (fuel : Nat) (node : Node)
    (ssh : Option Nat) (st : ExecState) : Except String Outcome × ExecState :=
  match fuel with
  | 0 => (.error "fuel exhausted", st)
  | fuel' + 1 =>
    nodeFinish w flow fuel' node ssh
      (nodeDispatch w flow fuel' node ssh
        (st.push (node.id ++ "_status") (.status "running")))
termination_by (fuel, 0, 0)

/-- The switch of `executeNode` (lines 101-163): a thrown error, or
    (result, shouldContinue, the possibly updated session). -/
def nodeDispatch (w : World) (flow : Flow) (fuel : Nat) (node : Node)
    (ssh : Option Nat) (st : ExecState) :
    Except String (Outcome × Bool × Option Nat) × ExecState :=
  if node.type = "start" then
    (.ok ({ success := true, message := some "Flow started" }, true, ssh), st)
  else if node.type = "end" then
    (.ok ({ success := true, message := some "Flow ended" }, false, ssh), st)
  else if node.type = "connect-raspberry-pi" then
    -- dispose a pre-existing session first (lines 112-115), then connect; a
    -- connection failure is rethrown (the error passes through the map)
    let st1 := if ssh.isSome then { st with closes := st.closes + 1 } else st
    let c := connectToPi w flow node st1
    (c.1.map (fun sid =>
      ({ success := true, message := some "Connected to Raspberry Pi",
         host := node.data.host }, true, some sid)), c.2)
  else if node.type = "run-command" then
    match ssh with
    | none =>
      (.error "No active SSH connection. Add a Connect Raspberry Pi node before Run Command.", st)
    | some _ =>
      let p := executeCommand w ssh node.data.command st
      (.ok (p.1, true, ssh), p.2)
  else if node.type = "gpio" then
    match ssh with
    | none =>
      (.error "No active SSH connection. Add a Connect Raspberry Pi node before GPIO control.", st)
    | some _ =>
      let p := controlGPIO w ssh node.data.pin node.data.state st
      (.ok (p.1, true, ssh), p.2)
  else if node.type = "loop" then
    let p := executeLoop w flow fuel node ssh st
    (.ok (p.1, true, ssh), p.2)
  else if node.type = "conditional-path" then
    let p := evaluateCondition w node ssh st
    (.ok (p.1, true, ssh), p.2)
  else if node.type = "text-message" then
    (.ok ({ success := true, message := some ("Message sent: " ++ node.data.message),
            recipient := some node.data.recipient }, true, ssh), st)
  else
    (.ok ({ success := false, message := some ("Unknown node type: " ++ node.type) },
      true, ssh), st)
termination_by (fuel, 3, 0)

/-- The tail of `executeNode` (lines 165-218): record the outcome and its
    derived status, stop on `end` nodes and failed outcomes, otherwise follow
    the outgoing edges (only the matching labeled edge after a conditional
    node); the catch applies to exceptions from the switch and from successor
    walks alike. -/
def nodeFinish (w : World) (flow : Flow) (fuel : Nat) (node : Node)
    (ssh : Option Nat) (b : Except String (Outcome × Bool × Option Nat) × ExecState) :
    Except String Outcome × ExecState :=
  match b.1 with
  | .error e => nodeCatch node ssh e b.2
  | .ok (result, shouldContinue, newSsh) =>
    let st2 := (b.2.push node.id (.outcome result)).push (node.id ++ "_status")
      (.status (if result.success then "success" else "error"))
    if ¬ shouldContinue ∨ ¬ result.success then (.ok result, st2)
    else
      let edges := flow.edges.filter (fun e => e.source == node.id)
      if node.type = "conditional-path" then
        match condNextEdge edges (result.conditionMet.getD false) with
        | none => (.ok result, st2)
        | some nextEdge =>
          match flow.nodes.find? (fun n => n.id == nextEdge.target) with
          | none => (.ok result, st2)
          | some nextNode =>
            let q := executeNode w flow fuel nextNode newSsh st2
            match q.1 with
            | .ok _ => (.ok result, q.2)
            | .error e => nodeCatch node ssh e q.2
      else
        let q := execSuccessors w flow fuel edges newSsh st2
        match q.1 with
        | .ok _ => (.ok result, q.2)
        | .error e => nodeCatch node ssh e q.2
termination_by (fuel, 2, 0)

/-- The successor loop at lines 196-201: follow every outgoing edge in list
    order; an edge whose target matches no node is skipped; an exception from a
    successor aborts the remaining edges. -/
def execSuccessors (w : World) (flow : Flow) (fuel : Nat) (edges : List Edge)
    (ssh : Option Nat) (st : ExecState) : Except String Unit × ExecState :=
  match edges with
  | [] => (.ok (), st)
  | e :: rest =>
    match flow.nodes.find? (fun n => n.id == e.target) with
    | none => execSuccessors w flow fuel rest ssh st
    | some nextNode =>
      let q := executeNode w flow fuel nextNode ssh st
      match q.1 with
      | .ok _ => execSuccessors w flow fuel rest ssh q.2
      | .error err => (.error err, q.2)
termination_by (fuel, 1, edges.length)

/-- Source `executeLoop` (lines 365-430): resolve the loop's single body edge and
    target; without either, report 0 iterations.  The catch at lines 423-429
    converts any exception from the body into a `{success:false, error}`
    outcome (it is not rethrown). -/
def executeLoop (w : World) (flow : Flow) (fuel : Nat) (node : Node)
    (ssh : Option Nat) (st : ExecState) : Outcome × ExecState :=
  let count := loopIterCount node.data.iterations
  match flow.edges.find? (fun e => e.source == node.id) with
  | none =>
    ({ success := true,
       message := some "Loop completed 0 iterations (no outgoing connections)" }, st)
  | some loopEdge =>
    match flow.nodes.find? (fun n => n.id == loopEdge.target) with
    | none =>
      ({ success := true,
         message := some "Loop completed 0 iterations (no target node)" }, st)
    | some target =>
      let p := loopIters w flow fuel node target ssh count.toNat 0 st
      match p.1 with
      | .ok r => (r, p.2)
      | .error e => ({ success := false, error := some e }, p.2)
termination_by (fuel, 2, 0)

/-- The iteration loop at lines 391-416: `n` iterations remain and `i` have
    completed.  Each iteration runs the body, records the iteration result
    under the 0-based sub-key, and — with `stopOnError` set — breaks after a
    failed iteration.  The inter-iteration delay is time-only. -/
def loopIters (w : World) (flow : Flow) (fuel : Nat) (node target : Node)
    (ssh : Option Nat) (n i : Nat) (st : ExecState) :
    Except String Outcome × ExecState :=
  match n with
  | 0 => (.ok (loopDone i), st)
  | n' + 1 =>
    let p := executeNode w flow fuel target ssh st
    match p.1 with
    | .error e => (.error e, p.2)
    | .ok r =>
      let st2 := p.2.push (node.id ++ "_iteration_" ++ toString i)
        (.iter (i + 1) target.id r)
      if ¬ r.success ∧ node.data.stopOnError then (.ok (loopDone (i + 1)), st2)
      else loopIters w flow fuel node target ssh n' (i + 1) st2
termination_by (fuel, 1, n)

end

/-- Result of one `executeFlow` run: the final `executionStatus`, the rethrown
    error if the run aborted (line 78), the message of the `{error}` object
    that then replaced `executionResults` (line 73), and the observable state
    accumulated by the walk. -/
structure RunResult where
  executionStatus : String
  thrown : Option String := none
  resultsReplaced : Option String := none
  st : ExecState := {}
deriving Repr, DecidableEq

/-- Source `executeFlow` (lines 24-80): reset the results, find the start node
    (`nodes.find`, line 54 — the first node of type `start`), walk from it, and
    set the final status; the catch at lines 68-79 sets status `error`,
    replaces `executionResults` with `{error}` and rethrows.  Loading the flow
    document and its owner is collaborator work, so the flow is an input. -/
def executeFlow (w : World) (flow : Flow) (fuel : Nat) : RunResult :=
  match flow.nodes.find? (fun n => n.type == "start") with
  | none =>
    { executionStatus := "error", thrown := some "No start node found in the flow",
      resultsReplaced := some "No start node found in the flow" }
  | some startNode =>
    match executeNode w flow fuel startNode none {} with
    | (.ok _, st) => { executionStatus := "success", st := st }
    | (.error e, st) =>
      { executionStatus := "error", thrown := some e, resultsReplaced := some e, st := st }

/-- What the flow controller's `runFlow` handler does with one run request:
    the HTTP response, the status it persists before responding, and whether
    it starts `executeFlow` in the background. -/
structure RunFlowAction where
  httpStatus : Nat
  body : String
  statusWrite : Option String
  executionStarted : Bool
deriving Repr, DecidableEq

/-- The `runFlow` handler (flow controller, guard at its lines 229-238): a flow
    whose `executionStatus` is already `running` is rejected with a 400 error
    and no execution starts; otherwise the status is set to `running` and
    `executeFlow` is started in the background. -/
def runFlow (executionStatus : String) : RunFlowAction :=
  if executionStatus = "running" then
    { httpStatus := 400, body := "Flow is already running",
      statusWrite := none, executionStarted := false }
  else
    { httpStatus := 200, body := "Flow execution started",
      statusWrite := some "running", executionStarted := true }

/-! ### Concrete worlds and flows used by the theorems -/

/-- A world with no reachable remote host and an empty device registry. -/
def wNone : World :=
  { exec := fun _ _ => .error "unreachable", connectOk := fun _ => false,
    pis := fun _ => none }

/-- A world where connecting succeeds and every remote command exits 0. -/
def wUp : World :=
  { exec := fun _ _ => .ok { code := 0, stdout := "hi", stderr := "" },
    connectOk := fun _ => true, pis := fun _ => none }

/-- The error message thrown by `executeNode` for a `run-command` node without
    a session (line 127). -/
def noSessionMsg : String :=
  "No active SSH connection. Add a Connect Raspberry Pi node before Run Command."

/-- Scenario A graph: `Start -> RunCommand(cmd) -> End`, no connect node. -/
def flowA (cmd : Option String) : Flow :=
  { nodes := [ { id := "s1", type := "start" },
               { id := "rc", type := "run-command", data := { command := cmd } },
               { id := "e1", type := "end" } ],
    edges := [ { source := "s1", target := "rc" },
               { source := "rc", target := "e1" } ] }

/-- Scenario B-like graph: `Start -> ConnectRaspberryPi(inline host) -> End`. -/
def flowB : Flow :=
  { nodes := [ { id := "s1", type := "start" },
               { id := "cp", type := "connect-raspberry-pi",
                 data := { host := some "pi.local" } },
               { id := "e1", type := "end" } ],
    edges := [ { source := "s1", target := "cp" },
               { source := "cp", target := "e1" } ] }

/-! ### C1 -/

/-- A world whose remote commands all exit with code 2. -/
def wExit2 : World :=
  { exec := fun _ _ => .ok { code := 2, stdout := "out", stderr := "err" },
    connectOk := fun _ => true, pis := fun _ => none }

/-- A flow whose node list holds two `start` nodes. -/
def flowTwoStarts : Flow :=
  { nodes := [ { id := "sA", type := "start" }, { id := "sB", type := "start" } ],
    edges := [] }

/-- A flow without any `start` node. -/
def flowNoStart : Flow :=
  { nodes := [ { id := "x", type := "end" } ], edges := [] }

/-- The only outgoing edge of the conditional node in `flowCondNoMatch`:
    labeled for the true branch. -/
def edgeCT : Edge := { source := "C", target := "T", sourceHandle := some "true" }

/-- The conditional node used by the C3 walk scenario: compares remote output
    with `"yes"` under `equals`. -/
def condNodeC : Node :=
  { id := "C", type := "conditional-path",
    data := { conditionType := some "command", command := some "c",
              comparison := some "equals", value := "yes" } }

/-- A flow whose conditional node only has a true-labeled outgoing edge. -/
def flowCondNoMatch : Flow :=
  { nodes := [ condNodeC,
               { id := "T", type := "text-message", data := { message := "m" } } ],
    edges := [ edgeCT ] }

/-- A world whose remote commands exit 0 printing `no`, so the `equals "yes"`
    condition evaluates to false. -/
def wNo : World :=
  { exec := fun _ _ => .ok { code := 0, stdout := "no", stderr := "" },
    connectOk := fun _ => true, pis := fun _ => none }

/-- A loop node carrying a raw `iterations` parameter. -/
def loopNodeC10 (it : Option String) : Node :=
  { id := "L", type := "loop", data := { iterations := it } }

/-- Loop with a text-message body, used to observe the default iteration
    count. -/
def flowC10 (it : Option String) : Flow :=
  { nodes := [ loopNodeC10 it,
               { id := "T", type := "text-message",
                 data := { message := "m", recipient := "r" } } ],
    edges := [ { source := "L", target := "T" } ] }

/-- Outcome of the text-message body node of `flowC10`. -/
def c10BodyOutcome : Outcome :=
  { success := true, message := some "Message sent: m", recipient := some "r" }

/-- The write log of one body iteration of `flowC10`. -/
def c10Log : List (String × RVal) :=
  [ ("T_status", .status "running"), ("T", .outcome c10BodyOutcome),
    ("T_status", .status "success"),
    ("L_iteration_0", .iter 1 "T" c10BodyOutcome) ]

/-- The walk at a given depth only ever appends to the results log. -/
def LogGrows (w : World) (flow : Flow) (fuel : Nat) : Prop :=
  ∀ node ssh st, ∃ t, ((executeNode w flow fuel node ssh st).2).log = st.log ++ t

/-- The loop node of the C4 scenario: raw iteration parameter `s`,
    `stopOnError` set. -/
def loopNodeL (s : String) : Node :=
  { id := "L", type := "loop", data := { iterations := some s, stopOnError := true } }

/-- The loop body of the C4 scenario: a run-command node. -/
def bodyNodeB : Node :=
  { id := "B", type := "run-command", data := { command := some "cmd" } }

/-- Loop `L` with body `B` reached through the loop's single outgoing edge. -/
def flowLoop (s : String) : Flow :=
  { nodes := [ loopNodeL s, bodyNodeB ],
    edges := [ { source := "L", target := "B" } ] }

/-- A world where exactly the `k`-th remote command (1-based) exits 1 and all
    others exit 0 — so the loop body fails exactly on iteration `k`. -/
def wFailAt (k : Nat) : World :=
  { exec := fun n _ => .ok { code := if n + 1 = k then 1 else 0, stdout := "", stderr := "" },
    connectOk := fun _ => true, pis := fun _ => none }

/-- The body outcome of one C4 iteration: success iff the remote command did
    not fail. -/
def c4BodyOutcome (failed : Bool) : Outcome :=
  { success := !failed, stdout := some "", stderr := some "",
    code := some (if failed then 1 else 0), command := some "cmd" }

/-- The four writes of iteration `i` (0-based) of the C4 loop: the body's
    status/outcome/status writes, then the `L_iteration_i` record carrying the
    1-based iteration number. -/
def c4Block (k i : Nat) : List (String × RVal) :=
  [ ("B_status", RVal.status "running"),
    ("B", RVal.outcome (c4BodyOutcome (i + 1 == k))),
    ("B_status", RVal.status (if i + 1 == k then "error" else "success")),
    ("L_iteration_" ++ toString i, RVal.iter (i + 1) "B" (c4BodyOutcome (i + 1 == k))) ]

/-- A run of `m` iteration blocks starting at index `i`. -/
def c4Blocks (k : Nat) : Nat → Nat → List (String × RVal)
  | 0, _ => []
  | m + 1, i => c4Block k i ++ c4Blocks k m (i + 1)

/-- The full write log of the C4 loop run: blocks 0 .. k-1. -/
def c4Log (k : Nat) : List (String × RVal) := c4Blocks k k 0

/-- C1 (amended): on `Start -> RunCommand -> End` with no connect node, the
    missing-session failure is recorded as the RunCommand node's
    `{success:false, error:"No active SSH connection..."}` outcome and no
    remote call is made and the `end` node is never reached; but the failure is
    thrown, not caught at the handler, so it escapes the walk and the flow's
    final status is `error`, not `success` (and the results map is then
    replaced by the run-level `{error}` object). -/
theorem c1_missing_session_recorded_but_escapes (w : World) (cmd : Option String) :
    (executeFlow w (flowA cmd) 10).st.lookup "rc"
        = some (.outcome { success := false, error := some noSessionMsg })
      ∧ (executeFlow w (flowA cmd) 10).st.remoteCalls = 0
      ∧ (executeFlow w (flowA cmd) 10).st.lookup "e1" = none
      ∧ (executeFlow w (flowA cmd) 10).executionStatus = "error"
      ∧ (executeFlow w (flowA cmd) 10).thrown = some noSessionMsg := by
  simp [executeFlow, executeNode, nodeDispatch, nodeFinish, execSuccessors, nodeCatch, Except.map, noSessionMsg,
    ExecState.push, ExecState.lookup, flowA]

/-- C1 counterexample: in the claim's own scenario (`Start -> RunCommand("echo
    hi") -> End`, no connect node) the RunCommand outcome is recorded as
    `{success:false}` and no remote call happens, yet the flow's final status
    is `"error"`, not `"success"` as the claim states. -/
theorem c1_cex :
    (executeFlow wNone (flowA (some "echo hi")) 10).st.lookup "rc"
        = some (.outcome { success := false, error := some noSessionMsg })
      ∧ (executeFlow wNone (flowA (some "echo hi")) 10).st.remoteCalls = 0
      ∧ (executeFlow wNone (flowA (some "echo hi")) 10).executionStatus ≠ "success" := by
  simp [executeFlow, executeNode, nodeDispatch, nodeFinish, execSuccessors, nodeCatch, Except.map, noSessionMsg,
    ExecState.push, ExecState.lookup, flowA, wNone]

/-! ### C2 -/

/-- C2: the code leaks the session on the normal-completion path.  Running
    `Start -> ConnectRaspberryPi -> End` against a reachable host completes
    with status `success` having opened one session and disposed none:
    `executeFlow` has no session teardown after the walk (lines 59-67), so
    opens ≠ closes, contradicting the claimed scoped-acquisition discipline. -/
theorem c2_session_leak_on_success :
    (executeFlow wUp flowB 10).executionStatus = "success"
      ∧ (executeFlow wUp flowB 10).st.opens = 1
      ∧ (executeFlow wUp flowB 10).st.closes = 0 := by
  simp [executeFlow, executeNode, nodeDispatch, nodeFinish, execSuccessors, nodeCatch, Except.map, connectToPi,
    connectAttempt, ExecState.push, flowB, wUp]

/-! ### C5 -/

/-- C5: for a non-empty command run through an active session whose remote
    execution completes at transport level, the outcome is the plain result
    record `{success: code == 0, stdout, stderr, code, command}` — the exit
    code is returned as data (`code` field), the `error` field stays empty and
    nothing is thrown, whatever the exit code is. -/
theorem c5_nonzero_exit_is_normal_result (w : World) (st : ExecState) (c : String)
    (sid : Nat) (r : ExecResult)
    (h1 : jsTrim c ≠ "") (h2 : w.exec st.remoteCalls c = .ok r) :
    executeCommand w (some sid) (some c) st
        = ({ success := r.code == 0, stdout := some r.stdout, stderr := some r.stderr,
             code := some r.code, command := some c },
           { st with remoteCalls := st.remoteCalls + 1 })
      ∧ (executeCommand w (some sid) (some c) st).1.error = none := by
  refine ⟨?_, ?_⟩ <;> simp [executeCommand, h1, h2]

/-- C5 witness: a command exiting 2 yields `{success:false, code:2}` with no
    error field. -/
theorem c5_witness :
    (jsTrim "false" ≠ "")
      ∧ wExit2.exec 0 "false" = .ok { code := 2, stdout := "out", stderr := "err" }
      ∧ executeCommand wExit2 (some 0) (some "false") {}
          = ({ success := false, stdout := some "out", stderr := some "err",
               code := some 2, command := some "false" }, { remoteCalls := 1 }) :=
  ⟨by decide, rfl, by
    simpa using
      (c5_nonzero_exit_is_normal_result wExit2 {} "false" 0
        { code := 2, stdout := "out", stderr := "err" } (by decide) rfl).1⟩

/-! ### C6 -/

/-- C6 counterexample: a flow with two `start` nodes is not rejected — the run
    completes with status `success` and nothing is thrown, refuting the claim
    that multiple `Start` nodes make finding the entry node fail. -/
theorem c6_cex :
    (flowTwoStarts.nodes.filter (fun n => n.type == "start")).length = 2
      ∧ (executeFlow wNone flowTwoStarts 10).executionStatus = "success"
      ∧ (executeFlow wNone flowTwoStarts 10).thrown = none := by
  refine ⟨by decide, ?_, ?_⟩ <;>
    simp [executeFlow, executeNode, nodeDispatch, nodeFinish, execSuccessors, ExecState.push,
      flowTwoStarts, wNone]

/-- C6 (amended): the entry lookup fails (aborting the run with status `error`
    and the thrown message `No start node found in the flow`) exactly when the
    node list has zero `start` nodes; with several `start` nodes the run is
    accepted and proceeds from the first `start` node in list order — here
    `sA` is executed and `sB` is never touched. -/
theorem c6_find_start_fails_only_when_zero (w : World) (flow : Flow) (fuel : Nat)
    (h : flow.nodes.find? (fun n => n.type == "start") = none) :
    executeFlow w flow fuel
        = { executionStatus := "error", thrown := some "No start node found in the flow",
            resultsReplaced := some "No start node found in the flow" }
      ∧ (executeFlow wNone flowTwoStarts 10).executionStatus = "success"
      ∧ (executeFlow wNone flowTwoStarts 10).st.lookup "sA_status"
          = some (.status "success")
      ∧ (executeFlow wNone flowTwoStarts 10).st.lookup "sB_status" = none := by
  refine ⟨by simp [executeFlow, h], ?_, ?_, ?_⟩ <;>
    simp [executeFlow, executeNode, nodeDispatch, nodeFinish, execSuccessors, ExecState.push,
      ExecState.lookup, flowTwoStarts, wNone]

/-- C6 witness: a flow with no `start` node aborts with the `No start node
    found` error. -/
theorem c6_witness :
    flowNoStart.nodes.find? (fun n => n.type == "start") = none
      ∧ executeFlow wNone flowNoStart 3
          = { executionStatus := "error",
              thrown := some "No start node found in the flow",
              resultsReplaced := some "No start node found in the flow" } :=
  ⟨by decide,
    (c6_find_start_fails_only_when_zero wNone flowNoStart 3 (by decide)).1⟩

/-! ### C7 -/

/-- C7: an edge whose target id matches no node is simply skipped by the
    successor loop — walking `e :: rest` equals walking `rest`, and walking the
    dangling edge alone does nothing and returns normally (no exception), so
    the run is not aborted by it. -/
theorem c7_dangling_edge_skipped (w : World) (flow : Flow) (fuel : Nat) (e : Edge)
    (rest : List Edge) (ssh : Option Nat) (st : ExecState)
    (h : flow.nodes.find? (fun n => n.id == e.target) = none) :
    execSuccessors w flow fuel (e :: rest) ssh st = execSuccessors w flow fuel rest ssh st
      ∧ execSuccessors w flow fuel [e] ssh st = (.ok (), st) := by
  constructor <;> simp [execSuccessors, h]

/-- C7 witness: an edge pointing at the absent id `zz` is skipped and aborts
    nothing. -/
theorem c7_witness :
    flowB.nodes.find? (fun n => n.id == ({ source := "s1", target := "zz" } : Edge).target)
        = none
      ∧ execSuccessors wNone flowB 5 [{ source := "s1", target := "zz" }] none {}
          = execSuccessors wNone flowB 5 [] none {}
      ∧ execSuccessors wNone flowB 5 [{ source := "s1", target := "zz" }] none {}
          = (.ok (), {}) :=
  ⟨by decide,
    (c7_dangling_edge_skipped wNone flowB 5 _ [] none {} (by decide)).1,
    (c7_dangling_edge_skipped wNone flowB 5 _ [] none {} (by decide)).2⟩

/-! ### C8 -/

/-- C8: a run request for a flow whose `executionStatus` is already `running`
    is rejected with a 400 error, persists no status and starts no execution;
    for any other status the handler persists `running` and starts the run —
    the Idle→Running transition happens only after the guard passes. -/
theorem c8_running_guard (s : String) :
    runFlow "running"
        = { httpStatus := 400, body := "Flow is already running",
            statusWrite := none, executionStarted := false }
      ∧ (s ≠ "running" →
          runFlow s
            = { httpStatus := 200, body := "Flow execution started",
                statusWrite := some "running", executionStarted := true }) := by
  exact ⟨by simp [runFlow], fun h => by simp [runFlow, h]⟩

/-- C8 witness: an idle flow is accepted, marked running and started. -/
theorem c8_witness :
    "idle" ≠ "running"
      ∧ runFlow "idle"
          = { httpStatus := 200, body := "Flow execution started",
              statusWrite := some "running", executionStarted := true } :=
  ⟨by decide, (c8_running_guard "idle").2 (by decide)⟩

/-! ### C3 -/

/-- C3: after a conditional node evaluates, only matching-labeled edges are
    followed: any edge the selection returns carries the label of the evaluated
    `conditionMet` value, and when no outgoing edge carries that label the
    selection is empty.  Concretely, walking a conditional node that evaluated
    false with only a true-labeled outgoing edge returns its own outcome
    normally (no exception) and executes no successor. -/
theorem c3_conditional_branch_labels (edges : List Edge) (cm : Bool) :
    (∀ e, condNextEdge edges cm = some e →
        e.sourceHandle = some (if cm then "true" else "false"))
      ∧ ((∀ e ∈ edges, e.sourceHandle ≠ some (if cm then "true" else "false")) →
          condNextEdge edges cm = none)
      ∧ (executeNode wNo flowCondNoMatch 10 condNodeC (some 0) {}).1
          = .ok (condOutcome false)
      ∧ (executeNode wNo flowCondNoMatch 10 condNodeC (some 0) {}).2.lookup "T_status"
          = none := by
  refine ⟨?_, ?_, ?_, ?_⟩
  · intro e h
    simp only [condNextEdge] at h
    have hp := List.find?_some h
    cases cm <;> simp_all
  · intro h
    simp only [condNextEdge]
    rw [List.find?_eq_none]
    intro x hx
    have := h x hx
    cases cm <;> simp_all
  · simp [executeNode, nodeDispatch, nodeFinish, evaluateCondition, executeCommand, condNextEdge, condOutcome,
      jsTrim, ExecState.push, ExecState.lookup, flowCondNoMatch, condNodeC, edgeCT, wNo]
  · simp [executeNode, nodeDispatch, nodeFinish, evaluateCondition, executeCommand, condNextEdge, condOutcome,
      jsTrim, ExecState.push, ExecState.lookup, flowCondNoMatch, condNodeC, edgeCT, wNo]

/-- C3 witness: with only a true-labeled edge, a false evaluation selects no
    successor; a true evaluation selects exactly that true-labeled edge. -/
theorem c3_witness :
    condNextEdge [edgeCT] false = none ∧ edgeCT.sourceHandle = some "true" :=
  ⟨(c3_conditional_branch_labels [edgeCT] false).2.1 (by decide),
    (c3_conditional_branch_labels [edgeCT] true).1 edgeCT (by rfl)⟩

/-! ### C10 -/

/-- C10: a missing, non-numeric or zero `iterations` parameter makes the
    iteration count default to 1, and executing such a loop performs exactly
    one iteration of its body: one `_iteration_` record is written and the
    loop reports 1 completed iteration. -/
theorem c10_loop_iterations_default_one (w : World) (it : Option String)
    (h : it = none ∨ ∃ s, it = some s ∧ (jsParseInt s = none ∨ jsParseInt s = some 0)) :
    loopIterCount it = 1
      ∧ executeLoop w (flowC10 it) 2 (loopNodeC10 it) none {}
          = (loopDone 1, { log := c10Log }) := by
  have hc : loopIterCount it = 1 := by
    rcases h with h | ⟨s, rfl, h⟩
    · simp [h, loopIterCount]
    · rcases h with h | h <;> simp [loopIterCount, h]
  refine ⟨hc, ?_⟩
  simp [executeLoop, loopIters, executeNode, nodeDispatch, nodeFinish, execSuccessors, hc, loopDone,
    ExecState.push, flowC10, loopNodeC10, c10Log, c10BodyOutcome]
  rfl

/-! ### Log-growth lemmas: the results log is append-only -/

/-- Pushing appends one entry. -/
theorem push_log (st : ExecState) (k : String) (v : RVal) :
    (st.push k v).log = st.log ++ [(k, v)] := rfl

/-- Disposing a session (the connect node's supersession step) does not touch
    the log. -/
theorem dispose_log (ssh : Option Nat) (st : ExecState) :
    (if ssh.isSome then { st with closes := st.closes + 1 } else st).log = st.log := by
  split <;> rfl

/-- Lemma: `connectAttempt` does not write the results log. -/
theorem connectAttempt_log (w : World) (st : ExecState) :
    (connectAttempt w st).2.log = st.log := by
  simp only [connectAttempt]
  split <;> rfl

/-- Lemma: `connectToPi` does not write the results log. -/
theorem connectToPi_log (w : World) (flow : Flow) (node : Node) (st : ExecState) :
    (connectToPi w flow node st).2.log = st.log := by
  unfold connectToPi
  repeat' split
  all_goals simp [connectAttempt_log]

/-- Lemma: `executeCommand` does not write the results log. -/
theorem executeCommand_log (w : World) (ssh : Option Nat) (c : Option String)
    (st : ExecState) : (executeCommand w ssh c st).2.log = st.log := by
  unfold executeCommand
  repeat' split
  all_goals rfl

/-- Lemma: `controlGPIO` does not write the results log. -/
theorem controlGPIO_log (w : World) (ssh : Option Nat) (pin : Int) (state : Bool)
    (st : ExecState) : ( controlGPIO w ssh pin state st).2.log = st.log := by
  unfold controlGPIO
  repeat' split
  all_goals rfl

/-- Lemma: `evaluateCondition` does not write the results log. -/
theorem evaluateCondition_log (w : World) (node : Node) (ssh : Option Nat)
    (st : ExecState) : (evaluateCondition w node ssh st).2.log = st.log := by
  simp only [evaluateCondition]
  repeat' split
  all_goals simp [executeCommand_log]

/-- The catch block appends exactly the failure outcome and the error status. -/
theorem nodeCatch_log (node : Node) (ssh : Option Nat) (e : String) (st : ExecState) :
    (nodeCatch node ssh e st).2.log
      = st.log ++ [(node.id, RVal.outcome { success := false, error := some e }),
                   (node.id ++ "_status", RVal.status "error")] := by
  unfold nodeCatch
  split <;> simp [ExecState.push]

/-- The successor loop only appends, provided node execution does. -/
theorem succ_log_grows {w : World} {flow : Flow} {fuel : Nat}
    (h : LogGrows w flow fuel) (edges : List Edge) (ssh : Option Nat) (st : ExecState) :
    ∃ t, ((execSuccessors w flow fuel edges ssh st).2).log = st.log ++ t := by
  induction edges generalizing st with
  | nil => exact ⟨[], by simp [execSuccessors]⟩
  | cons e rest ih =>
    cases hf : flow.nodes.find? (fun n => n.id == e.target) with
    | none =>
      obtain ⟨t, ht⟩ := ih st
      exact ⟨t, by simp only [execSuccessors, hf]; exact ht⟩
    | some nextNode =>
      obtain ⟨t1, h1⟩ := h nextNode ssh st
      cases hq : (executeNode w flow fuel nextNode ssh st).1 with
      | error err =>
        exact ⟨t1, by simp only [execSuccessors, hf, hq]; exact h1⟩
      | ok u =>
        obtain ⟨t2, h2⟩ := ih (executeNode w flow fuel nextNode ssh st).2
        refine ⟨t1 ++ t2, ?_⟩
        simp only [execSuccessors, hf, hq]
        rw [h2, h1, List.append_assoc]

/-- The loop iteration runner only appends, provided node execution does. -/
theorem loopIters_log_grows {w : World} {flow : Flow} {fuel : Nat}
    (h : LogGrows w flow fuel) (node target : Node) (ssh : Option Nat)
    (n i : Nat) (st : ExecState) :
    ∃ t, ((loopIters w flow fuel node target ssh n i st).2).log = st.log ++ t := by
  induction n generalizing i st with
  | zero => exact ⟨[], by simp [loopIters]⟩
  | succ n' ih =>
    obtain ⟨t1, h1⟩ := h target ssh st
    cases hq : (executeNode w flow fuel target ssh st).1 with
    | error e =>
      exact ⟨t1, by simp only [loopIters, hq]; exact h1⟩
    | ok r =>
      by_cases hb : (¬ r.success ∧ node.data.stopOnError)
      · refine ⟨t1 ++ [(node.id ++ "_iteration_" ++ toString i,
          RVal.iter (i + 1) target.id r)], ?_⟩
        simp only [loopIters, hq, if_pos hb, ExecState.push]
        rw [h1, List.append_assoc]
      · obtain ⟨t2, h2⟩ := ih (i + 1)
          (((executeNode w flow fuel target ssh st).2).push
            (node.id ++ "_iteration_" ++ toString i) (RVal.iter (i + 1) target.id r))
        refine ⟨t1 ++ [(node.id ++ "_iteration_" ++ toString i,
          RVal.iter (i + 1) target.id r)] ++ t2, ?_⟩
        simp only [loopIters, hq, if_neg hb]
        rw [h2]
        simp only [push_log, h1, List.append_assoc]

/-- Lemma: `executeLoop` only appends, provided node execution does. -/
theorem executeLoop_log_grows {w : World} {flow : Flow} {fuel : Nat}
    (h : LogGrows w flow fuel) (node : Node) (ssh : Option Nat) (st : ExecState) :
    ∃ t, ((executeLoop w flow fuel node ssh st).2).log = st.log ++ t := by
  unfold executeLoop
  cases he : flow.edges.find? (fun e => e.source == node.id) with
  | none => exact ⟨[], by simp⟩
  | some loopEdge =>
    cases hn : flow.nodes.find? (fun n => n.id == loopEdge.target) with
    | none => exact ⟨[], by simp [hn]⟩
    | some target =>
      obtain ⟨t, ht⟩ := loopIters_log_grows h node target ssh
        (loopIterCount node.data.iterations).toNat 0 st
      cases hq : (loopIters w flow fuel node target ssh
          (loopIterCount node.data.iterations).toNat 0 st).1 with
      | ok r => exact ⟨t, by simp only [hn, hq]; exact ht⟩
      | error e => exact ⟨t, by simp only [hn, hq]; exact ht⟩

/-- The switch of `executeNode` only appends to the log, provided deeper node
    execution does. -/
theorem nodeDispatch_log_grows {w : World} {flow : Flow} {fuel : Nat}
    (h : LogGrows w flow fuel) (node : Node) (ssh : Option Nat) (st : ExecState) :
    ∃ t, ((nodeDispatch w flow fuel node ssh st).2).log = st.log ++ t := by
  unfold nodeDispatch
  repeat' split
  all_goals
    first
      | exact executeLoop_log_grows h node ssh st
      | exact ⟨[], by simp [connectToPi_log, dispose_log, executeCommand_log,
          controlGPIO_log, evaluateCondition_log]⟩

/-- Shape of one node execution's writes: the running status first, then the
    handler's own writes, then the node outcome and its derived status, then
    everything written while walking successors (including, on the abort path,
    the catch block's overwrite of this node's outcome). -/
theorem executeNode_shape {w : World} {flow : Flow} (fuel : Nat)
    (h : LogGrows w flow fuel) (node : Node) (ssh : Option Nat) (st : ExecState) :
    ∃ handlerLog o succLog,
      ((executeNode w flow (fuel + 1) node ssh st).2).log
        = st.log ++ [(node.id ++ "_status", RVal.status "running")] ++ handlerLog
          ++ [(node.id, RVal.outcome o),
              (node.id ++ "_status",
                RVal.status (if o.success then "success" else "error"))]
          ++ succLog := by
  obtain ⟨bLog, hb⟩ := nodeDispatch_log_grows h node ssh
    (st.push (node.id ++ "_status") (.status "running"))
  rw [push_log] at hb
  simp only [executeNode, nodeFinish]
  cases hd : (nodeDispatch w flow fuel node ssh
      (st.push (node.id ++ "_status") (.status "running"))).1 with
  | error e =>
    refine ⟨bLog, { success := false, error := some e }, [], ?_⟩
    simp only [hd]
    rw [nodeCatch_log, hb]
    simp [List.append_assoc]
  | ok trip =>
    obtain ⟨result, shouldCont, newSsh⟩ := trip
    simp only [hd]
    by_cases hstop : (¬ shouldCont ∨ ¬ result.success)
    · refine ⟨bLog, result, [], ?_⟩
      simp only [if_pos hstop]
      simp only [push_log]
      rw [hb]
      simp [List.append_assoc]
    · by_cases hcond : node.type = "conditional-path"
      · simp only [if_neg hstop, if_pos hcond]
        cases hne : condNextEdge (flow.edges.filter (fun e => e.source == node.id))
            (result.conditionMet.getD false) with
        | none =>
          refine ⟨bLog, result, [], ?_⟩
          simp only [hne]
          simp only [push_log]
          rw [hb]
          simp [List.append_assoc]
        | some nextEdge =>
          simp only [hne]
          cases hfind : flow.nodes.find? (fun n => n.id == nextEdge.target) with
          | none =>
            refine ⟨bLog, result, [], ?_⟩
            simp only [hfind]
            simp only [push_log]
            rw [hb]
            simp [List.append_assoc]
          | some nextNode =>
            simp only [hfind]
            obtain ⟨t, htq⟩ := h nextNode newSsh
              ((((nodeDispatch w flow fuel node ssh
                  (st.push (node.id ++ "_status") (.status "running"))).2.push
                node.id (.outcome result)).push (node.id ++ "_status")
                (.status (if result.success then "success" else "error"))))
            cases hqq : (executeNode w flow fuel nextNode newSsh
                ((((nodeDispatch w flow fuel node ssh
                    (st.push (node.id ++ "_status") (.status "running"))).2.push
                  node.id (.outcome result)).push (node.id ++ "_status")
                  (.status (if result.success then "success" else "error"))))).1 with
            | ok u =>
              refine ⟨bLog, result, t, ?_⟩
              simp only [hqq]
              rw [htq]
              simp only [push_log]
              rw [hb]
              simp [List.append_assoc]
            | error e2 =>
              refine ⟨bLog, result,
                t ++ [(node.id, RVal.outcome { success := false, error := some e2 }),
                      (node.id ++ "_status", RVal.status "error")], ?_⟩
              simp only [hqq]
              rw [nodeCatch_log, htq]
              simp only [push_log]
              rw [hb]
              simp [List.append_assoc]
      · simp only [if_neg hstop, if_neg hcond]
        obtain ⟨t, htq⟩ := succ_log_grows h
          (flow.edges.filter (fun e => e.source == node.id)) newSsh
          ((((nodeDispatch w flow fuel node ssh
              (st.push (node.id ++ "_status") (.status "running"))).2.push
            node.id (.outcome result)).push (node.id ++ "_status")
            (.status (if result.success then "success" else "error"))))
        cases hqq : (execSuccessors w flow fuel
            (flow.edges.filter (fun e => e.source == node.id)) newSsh
            ((((nodeDispatch w flow fuel node ssh
                (st.push (node.id ++ "_status") (.status "running"))).2.push
              node.id (.outcome result)).push (node.id ++ "_status")
              (.status (if result.success then "success" else "error"))))).1 with
        | ok u =>
          refine ⟨bLog, result, t, ?_⟩
          simp only [hqq]
          rw [htq]
          simp only [push_log]
          rw [hb]
          simp [List.append_assoc]
        | error e2 =>
          refine ⟨bLog, result,
            t ++ [(node.id, RVal.outcome { success := false, error := some e2 }),
                  (node.id ++ "_status", RVal.status "error")], ?_⟩
          simp only [hqq]
          rw [nodeCatch_log, htq]
          simp only [push_log]
          rw [hb]
          simp [List.append_assoc]

/-- Every node execution, at any depth, only appends to the results log. -/
theorem log_grows (w : World) (flow : Flow) : ∀ fuel, LogGrows w flow fuel := by
  intro fuel
  induction fuel with
  | zero => exact fun node ssh st => ⟨[], by simp [executeNode]⟩
  | succ n ih =>
    intro node ssh st
    obtain ⟨hLog, o, succLog, hs⟩ := executeNode_shape n ih node ssh st
    exact ⟨[(node.id ++ "_status", RVal.status "running")] ++ hLog
      ++ [(node.id, RVal.outcome o),
          (node.id ++ "_status", RVal.status (if o.success then "success" else "error"))]
      ++ succLog, by rw [hs]; simp [List.append_assoc]⟩

/-! ### C9 -/

/-- C9: per-node ordering of Result Store writes — executing a node (at any
    positive depth) writes, in order: its `running` status first, then the
    handler's own writes (`handlerLog`, e.g. loop-iteration records), then its
    outcome record immediately followed by its derived status, and only then
    everything written while walking its successors (`succLog`), so any
    successor's status write comes after this node's outcome write.  (On the
    abort path `succLog` additionally ends with the catch block's overwrite of
    this node's outcome.) -/
theorem c9_write_ordering (w : World) (flow : Flow) (fuel : Nat) (node : Node)
    (ssh : Option Nat) (st : ExecState) :
    ∃ handlerLog o succLog,
      ((executeNode w flow (fuel + 1) node ssh st).2).log
        = st.log ++ [(node.id ++ "_status", RVal.status "running")] ++ handlerLog
          ++ [(node.id, RVal.outcome o),
              (node.id ++ "_status",
                RVal.status (if o.success then "success" else "error"))]
          ++ succLog :=
  executeNode_shape fuel (log_grows w flow fuel) node ssh st

/-! ### C4 -/

/-- One execution of the C4 body: one remote call, three writes, outcome
    failing exactly when this is the `k`-th remote call. -/
theorem c4_body_step (s : String) (k fuel : Nat) (st : ExecState) :
    executeNode (wFailAt k) (flowLoop s) (fuel + 1) bodyNodeB (some 0) st
      = (.ok (c4BodyOutcome (st.remoteCalls + 1 == k)),
         { st with
             log := st.log ++
               [ ("B_status", RVal.status "running"),
                 ("B", RVal.outcome (c4BodyOutcome (st.remoteCalls + 1 == k))),
                 ("B_status",
                   RVal.status (if st.remoteCalls + 1 == k then "error" else "success")) ],
             remoteCalls := st.remoteCalls + 1 }) := by
  by_cases hk : st.remoteCalls + 1 = k
  · simp [executeNode, nodeDispatch, nodeFinish, executeCommand, execSuccessors,
      ExecState.push, jsTrim, flowLoop, bodyNodeB, loopNodeL, wFailAt,
      c4BodyOutcome, hk]
  · simp [executeNode, nodeDispatch, nodeFinish, executeCommand, execSuccessors,
      ExecState.push, jsTrim, flowLoop, bodyNodeB, loopNodeL, wFailAt,
      c4BodyOutcome, hk]

/-- The C4 iteration loop, started at index `i` with the failing call `k`
    still ahead but within the remaining `n` iterations, runs exactly to the
    failing iteration `k`, records blocks `i .. k-1`, and reports `k`
    completed iterations. -/
theorem c4_loop_aux (s : String) (k fuel : Nat) :
    ∀ n i st, st.remoteCalls = i → i < k → k ≤ i + n →
      loopIters (wFailAt k) (flowLoop s) (fuel + 1) (loopNodeL s) bodyNodeB (some 0) n i st
        = (.ok (loopDone k),
           { st with log := st.log ++ c4Blocks k (k - i) i, remoteCalls := k }) := by
  intro n
  induction n with
  | zero => intro i st _ h2 h3; omega
  | succ n' ih =>
    intro i st hrc hik hkn
    have hb := c4_body_step s k fuel st
    by_cases hk : i + 1 = k
    · have hki : k - i = 1 := by omega
      simp only [loopIters, hb, hrc, ExecState.push]
      simp [loopNodeL, bodyNodeB, c4BodyOutcome, hk, hki, c4Blocks, c4Block,
        List.append_assoc]
    · have hik1 : i + 1 < k := by omega
      have hkn1 : k ≤ (i + 1) + n' := by omega
      have hsub : k - i = (k - (i + 1)) + 1 := by omega
      simp only [loopIters, hb, hrc, ExecState.push]
      have hkb : (i + 1 == k) = false := by simp [hk]
      rw [ih (i + 1) _ (by simp) hik1 hkn1]
      simp only [hkb, hsub, c4Blocks, c4Block, c4BodyOutcome]
      simp [loopNodeL, bodyNodeB, List.append_assoc]

/-- C4: a `stopOnError` loop configured for `c` iterations whose body fails
    (exit code 1) exactly on iteration `k`, `1 ≤ k < c`, runs iterations
    `1 .. k` only — each recorded under the synthetic sub-key
    `L_iteration_n` (0-based index `n = 0 .. k-1`, record carrying the 1-based
    iteration number), with iterations `1 .. k-1` successful and iteration `k`
    failed — attempts nothing after iteration `k` (exactly `k` remote calls),
    and the loop's own outcome is `loopDone k`: `{success:true}` with the
    message reporting `k` completed iterations. -/
theorem c4_stop_on_error_loop (s : String) (c k fuel : Nat)
    (h1 : loopIterCount (some s) = (c : Int)) (h2 : 1 ≤ k) (h3 : k < c) :
    executeLoop (wFailAt k) (flowLoop s) (fuel + 1) (loopNodeL s) (some 0) {}
      = (loopDone k, { log := c4Log k, remoteCalls := k }) := by
  have haux := c4_loop_aux s k fuel c 0 {} rfl (by omega) (by omega)
  simp only [executeLoop, loopNodeL, flowLoop, bodyNodeB, h1, Int.toNat_natCast]
  simp only [loopNodeL, flowLoop, bodyNodeB] at haux
  simp [haux, c4Log]

/-- C4 witness: iterations parameter `"3"`, failure on iteration 2: the loop
    stops after iteration 2 and reports 2 completed iterations. -/
theorem c4_witness :
    loopIterCount (some "3") = (3 : Int)
      ∧ executeLoop (wFailAt 2) (flowLoop "3") 1 (loopNodeL "3") (some 0) {}
          = (loopDone 2, { log := c4Log 2, remoteCalls := 2 }) :=
  ⟨by decide,
    c4_stop_on_error_loop "3" 3 2 0 (by decide) (by decide) (by decide)⟩

/-- C10 witness: the non-numeric iterations parameter `"abc"` runs the body
    exactly once. -/
theorem c10_witness :
    jsParseInt "abc" = none
      ∧ loopIterCount (some "abc") = 1
      ∧ executeLoop wNone (flowC10 (some "abc")) 2 (loopNodeC10 (some "abc")) none {}
          = (loopDone 1, { log := c10Log }) := by
  have h := c10_loop_iterations_default_one wNone (some "abc")
    (Or.inr ⟨"abc", rfl, Or.inl (by decide)⟩)
  exact ⟨by decide, h.1, h.2⟩

end PiDash
